import Mathlib

/-!
Verification of the Python system-benchmark program (src/main.py) against its
natural-language specification.  Each workload function of the program is given
a shallow embedding here; the theorems at the end of the file settle the
specification claims against these embeddings.
-/

namespace Benchmark

/-- Python range(0, stop, step) as a list of naturals: the offsets
0, step, 2*step, ... that are < stop (step assumed positive). -/
def rangeStep (stop step : Nat) : List Nat :=
  (List.range ((stop + step - 1) / step)).map (fun k => k * step)

/-- Embedding of memory_test (src/main.py lines 38-46):
size = size_mb * 1024 * 1024; buf = bytearray(size) (all zeros);
for i in range(0, size, 64): buf[i] = i % 256;
s = 0; for i in range(0, size, 64): s += buf[i]; return s.
The bytearray is embedded as a function Nat -> Nat (byte value at offset);
every written value i % 256 is < 256, so no byte-range truncation occurs. -/
def memory_test (size_mb : Nat) : Nat :=
  let size := size_mb * 1024 * 1024
  let buf : Nat → Nat :=
    (rangeStep size 64).foldl (fun b i => Function.update b i (i % 256)) (fun _ => 0)
  (rangeStep size 64).foldl (fun s i => s + buf i) 0

/-- Reference computation from the spec's words: the sum of (i mod 256) for
every stride offset i in [0, size_mb*1024*1024) step 64. -/
def memory_ref (size_mb : Nat) : Nat :=
  ((rangeStep (size_mb * 1024 * 1024) 64).map (fun i => i % 256)).sum

/-- Embedding of the trivial inner function of python_overhead
(src/main.py lines 63-64): inner(x) = x + 1. -/
def inner (x : Nat) : Nat := x + 1

/-- Embedding of python_overhead (src/main.py lines 62-69):
x = 0; for _ in range(n): x = inner(x); return x. -/
def python_overhead (n : Nat) : Nat :=
  (List.range n).foldl (fun x _ => inner x) 0

/-- Embedding of cpu_single (src/main.py lines 22-26):
x = 0.0; for i in range(1, n): x += sqrt(i) * sin(i); return x.
The floating-point accumulator is modelled as an exact rational and the
library functions sqrt and sin as arbitrary parameters, so the theorem
captures exactly which terms are accumulated and in which range. -/
def cpu_single (sqrtf sinf : Nat → ℚ) (n : Nat) : ℚ :=
  (List.range' 1 (n - 1)).foldl (fun x i => x + sqrtf i * sinf i) 0

/-- The size tiers accepted by the command line (src/main.py line 80). -/
inductive Tier where
  | small
  | medium
  | large
deriving DecidableEq, Repr

/-- Embedding of the sizes dictionary (src/main.py lines 83-87). -/
def sizes : Tier → Nat
  | .small => 1
  | .medium => 5
  | .large => 10

/-- cpu_iters = sizes[args.size] * 200_000 (src/main.py line 89). -/
def cpu_iters (t : Tier) : Nat := sizes t * 200000

/-- mem_mb = sizes[args.size] * 256 (src/main.py line 90). -/
def mem_mb (t : Tier) : Nat := sizes t * 256

/-- disk_mb = sizes[args.size] * 256 (src/main.py line 91). -/
def disk_mb (t : Tier) : Nat := sizes t * 256

/-- py_iters = sizes[args.size] * 5_000_000 (src/main.py line 92). -/
def py_iters (t : Tier) : Nat := sizes t * 5000000

/-- np_size = sizes[args.size] * 300 (src/main.py line 93). -/
def np_size (t : Tier) : Nat := sizes t * 300

/-- The tier multiplier as the spec words it: small=1, medium=5, large=10. -/
def specMultiplier : Tier → Nat
  | .small => 1
  | .medium => 5
  | .large => 10

/-! ### Disk workload

disk_test (src/main.py lines 49-59) writes a 1 MB chunk of random bytes
repeatedly to a named temporary file, flushes, seeks to the start and reads it
back chunk by chunk; the with-statement removes the file whether the body
completes or raises.  The file is embedded as contents plus a read position,
the filesystem as an Option of that (none = no file at the temporary path),
and a possible mid-way I/O failure as an oracle giving the index of the
operation that raises. -/

/-- The length of the chunk data = os.urandom(1024 * 1024) (src/main.py line 51). -/
def chunk_size : Nat := 1024 * 1024

/-- An open file handle: its byte contents and the current read position. -/
structure FileH where
  contents : List Nat
  pos : Nat
deriving DecidableEq, Repr

/-- f.write(data): sequential writes from an empty file append at the end. -/
def fwrite (f : FileH) (data : List Nat) : FileH :=
  { contents := f.contents ++ data, pos := f.pos + data.length }

/-- f.seek(0). -/
def fseek0 (f : FileH) : FileH :=
  { f with pos := 0 }

/-- f.read(k): the next min(k, remaining) bytes, advancing the position. -/
def fread (f : FileH) (k : Nat) : FileH × List Nat :=
  let out := (f.contents.drop f.pos).take k
  ({ f with pos := f.pos + out.length }, out)

/-- The write loop of disk_test: for _ in range(count): f.write(data),
with a failure oracle; operation idx raises when failAt = some idx. -/
def write_loop (data : List Nat) (failAt : Option Nat) :
    Nat → Nat → FileH → Except Unit FileH
  | 0, _, f => .ok f
  | count + 1, idx, f =>
    if failAt = some idx then .error ()
    else write_loop data failAt count (idx + 1) (fwrite f data)

/-- The read loop of disk_test: while f.read(chunk): pass, with the same
failure oracle; fuel bounds the iteration count (each successful read either
consumes bytes or ends the loop, so contents length + 1 fuel suffices). -/
def read_loop (chunk : Nat) (failAt : Option Nat) :
    Nat → Nat → FileH → Except Unit FileH
  | 0, _, f => .ok f
  | fuel + 1, idx, f =>
    if failAt = some idx then .error ()
    else
      let r := fread f chunk
      if r.2.isEmpty then .ok r.1
      else read_loop chunk failAt fuel (idx + 1) r.1

/-- The number of chunk writes performed by disk_test:
size // len(data) with size = size_mb * 1024 * 1024 (src/main.py line 54). -/
def disk_test_writes (size_mb : Nat) (data : List Nat) : Nat :=
  size_mb * 1024 * 1024 / data.length

/-- The body of disk_test's with-statement: the write loop, then flush and
seek(0), then the read loop until end of file. -/
def disk_test_body (size_mb : Nat) (data : List Nat) (failAt : Option Nat)
    (f0 : FileH) : Except Unit FileH :=
  let w := disk_test_writes size_mb data
  match write_loop data failAt w 0 f0 with
  | .error e => .error e
  | .ok f1 =>
    let f2 := fseek0 f1
    read_loop data.length failAt (f2.contents.length + 1) w f2

/-- Embedding of disk_test as a whole (src/main.py lines 49-59): the
with-statement creates the temporary file, runs the body, and removes the file
on exit whether the body returned normally or raised, re-raising the failure.
The second component is the filesystem state at the temporary path after the
call. -/
def disk_test_run (size_mb : Nat) (data : List Nat) (failAt : Option Nat) :
    Except Unit Unit × Option FileH :=
  match disk_test_body size_mb data failAt ⟨[], 0⟩ with
  | .error e => (.error e, none)
  | .ok _ => (.ok (), none)

/-- Pure write phase: the file after count successful writes of data. -/
def fwriteN (data : List Nat) : Nat → FileH → FileH
  | 0, f => f
  | count + 1, f => fwriteN data count (fwrite f data)

/-! ### Clock

timer (src/main.py lines 16-19) reads the monotonic clock, invokes the
workload once, and pairs the elapsed time with the workload's result.  The two
clock readings are abstract rationals; the workload threads a state (used by
the theorems to count invocations) and may fail, in which case the failure
propagates before the pair is formed. -/

/-- Embedding of timer (src/main.py lines 16-19):
start = perf_counter(); result = fn(); return perf_counter() - start, result.
A failure raised by fn propagates unchanged. -/
def timer {σ ε α : Type} (clockStart clockStop : ℚ)
    (fn : σ → σ × Except ε α) (s : σ) : σ × Except ε (ℚ × α) :=
  let r := fn s
  (r.1, match r.2 with
        | .error e => .error e
        | .ok v => .ok (clockStop - clockStart, v))

/-! ### Helper lemmas -/

/-- After folding pointwise updates buf[j] := g j over a list, the value at i
is g i when i occurs in the list and the original value otherwise. -/
theorem foldl_update_eq (g : Nat → Nat) :
    ∀ (l : List Nat) (b : Nat → Nat) (i : Nat),
      (l.foldl (fun b j => Function.update b j (g j)) b) i =
        if i ∈ l then g i else b i := by
  intro l
  induction l with
  | nil => intro b i; simp
  | cons j l ih =>
    intro b i
    by_cases h1 : i ∈ l <;> by_cases h2 : i = j <;>
      simp [List.foldl_cons, ih, Function.update_apply, h1, h2]

/-- Folding additions of g over a list sums the mapped list. -/
theorem foldl_add_eq {M : Type} [AddCommMonoid M] (g : Nat → M) :
    ∀ (l : List Nat) (s : M),
      l.foldl (fun a i => a + g i) s = s + (l.map g).sum := by
  intro l
  induction l with
  | nil => intro s; simp
  | cons j l ih => intro s; simp [List.foldl_cons, ih, add_assoc]

/-- A sum over List.range is the corresponding Finset.range sum. -/
theorem sum_map_range {M : Type} [AddCommMonoid M] (g : Nat → M) (n : Nat) :
    ((List.range n).map g).sum = ∑ k ∈ Finset.range n, g k := by
  induction n with
  | zero => simp
  | succ n ih => simp [List.range_succ, Finset.sum_range_succ, ih]

/-- A sum over List.range' is the corresponding shifted Finset.range sum. -/
theorem sum_map_range' {M : Type} [AddCommMonoid M] (g : Nat → M) :
    ∀ (m s : Nat), ((List.range' s m).map g).sum = ∑ k ∈ Finset.range m, g (s + k) := by
  intro m
  induction m with
  | zero => intro s; simp
  | succ m ih =>
    intro s
    have hidx : ∀ k, s + 1 + k = s + (k + 1) := by omega
    rw [List.range'_succ, List.map_cons, List.sum_cons, ih, Finset.sum_range_succ']
    simp only [hidx, Nat.add_zero]
    exact add_comm _ _

/-- The strided offsets of a size_mb-megabyte buffer with stride 64. -/
theorem rangeStep_memory (m : Nat) :
    rangeStep (m * 1024 * 1024) 64 = (List.range (m * 16384)).map (fun k => k * 64) := by
  have h : (m * 1024 * 1024 + 64 - 1) / 64 = m * 16384 := by omega
  unfold rangeStep
  rw [h]

/-- memory_test equals the strided sum of offset values mod 256
(the write pass stores i % 256 at offset i; the read pass sums it back). -/
theorem memory_test_eq_sum (m : Nat) :
    memory_test m = ((rangeStep (m * 1024 * 1024) 64).map (fun i => i % 256)).sum := by
  unfold memory_test
  rw [foldl_add_eq]
  simp only [Nat.zero_add]
  congr 1
  apply List.map_congr_left
  intro i hi
  simp [foldl_update_eq, hi]

/-- memory_test as a Finset.range sum over stride indices. -/
theorem memory_test_eq_finset (m : Nat) :
    memory_test m = ∑ k ∈ Finset.range (m * 16384), (k * 64) % 256 := by
  rw [memory_test_eq_sum, rangeStep_memory, List.map_map, sum_map_range]
  rfl

/-- cpu_single is the sum of the terms over the integer interval [1, n). -/
theorem cpu_single_eq_sum (sqrtf sinf : Nat → ℚ) (n : Nat) :
    cpu_single sqrtf sinf n = ∑ i ∈ Finset.Ico 1 n, sqrtf i * sinf i := by
  unfold cpu_single
  rw [foldl_add_eq, sum_map_range', Finset.sum_Ico_eq_sum_range]
  simp [Nat.add_comm]

/-- Folding the ignore-element body over any list iterates inner length-many
times. -/
theorem foldl_inner_iterate :
    ∀ (l : List Nat) (x : Nat),
      l.foldl (fun x _ => inner x) x = Nat.iterate inner l.length x := by
  intro l
  induction l with
  | nil => intro x; rfl
  | cons j l ih =>
    intro x
    rw [List.foldl_cons, ih, List.length_cons, Function.iterate_succ_apply]

/-- Iterating the add-one function n times from x yields x + n. -/
theorem iterate_inner_eq (n x : Nat) : Nat.iterate inner n x = x + n := by
  induction n with
  | zero => rfl
  | succ n ih => rw [Function.iterate_succ_apply', ih]; rfl

/-- With no injected failure the write loop succeeds, producing the pure
write phase fwriteN. -/
theorem write_loop_none (data : List Nat) :
    ∀ (count idx : Nat) (f : FileH),
      write_loop data none count idx f = .ok (fwriteN data count f) := by
  intro count
  induction count with
  | zero => intro idx f; rfl
  | succ c ih => intro idx f; simp [write_loop, fwriteN, ih]

/-- Each write appends data.length bytes, so count writes append
count * data.length bytes. -/
theorem fwriteN_length (data : List Nat) :
    ∀ (count : Nat) (f : FileH),
      (fwriteN data count f).contents.length =
        f.contents.length + count * data.length := by
  intro count
  induction count with
  | zero => intro f; simp [fwriteN]
  | succ c ih =>
    intro f
    rw [fwriteN, ih]
    simp [fwrite]
    ring

/-- The bytes present in the temporary file after disk_test's write phase
(the write loop run without failure, starting from the empty file). -/
def disk_test_written (size_mb : Nat) (data : List Nat) : List Nat :=
  match write_loop data none (disk_test_writes size_mb data) 0 ⟨[], 0⟩ with
  | .ok f => f.contents
  | .error _ => []

/-- The write phase writes exactly disk_test_writes chunks of data.length
bytes each. -/
theorem disk_test_written_length (size_mb : Nat) (data : List Nat) :
    (disk_test_written size_mb data).length =
      disk_test_writes size_mb data * data.length := by
  unfold disk_test_written
  rw [write_loop_none]
  simp [fwriteN_length]

/-! ### Claim theorems -/

/-- C1: for every size_mb, memory_test(size_mb) returns the sum of
(i mod 256) over every stride offset i in [0, size_mb*1024*1024) with step 64;
it is a pure function of size_mb, equal to the independent reference
computation memory_ref of that sum. -/
theorem claim_C1_memory_test_eq_ref (size_mb : Nat) :
    memory_test size_mb = memory_ref size_mb := by
  rw [memory_test_eq_sum]
  rfl

/-- C2: for every n, cpu_single(n) accumulates, starting from 0, the terms
sqrt(i) * sin(i) for integers i from 1 up to but excluding n (the interval
Ico 1 n); in particular cpu_single(1) returns 0 because the loop body never
executes.  The floating-point operations are modelled as exact rational
arithmetic with sqrt and sin abstract. -/
theorem claim_C2_cpu_single_accumulation (sqrtf sinf : Nat → ℚ) (n : Nat) :
    cpu_single sqrtf sinf n = (∑ i ∈ Finset.Ico 1 n, sqrtf i * sinf i) ∧
      cpu_single sqrtf sinf 1 = 0 := by
  refine ⟨cpu_single_eq_sum sqrtf sinf n, ?_⟩
  rfl

/-- C3: for every n, python_overhead(n) applies the increment function inner
exactly n times starting from 0 and returns exactly n. -/
theorem claim_C3_python_overhead_returns_n (n : Nat) :
    python_overhead n = Nat.iterate inner n 0 ∧ python_overhead n = n := by
  have h : python_overhead n = Nat.iterate inner n 0 := by
    unfold python_overhead
    rw [foldl_inner_iterate, List.length_range]
  exact ⟨h, by rw [h, iterate_inner_eq]; exact Nat.zero_add n⟩

/-- C4: for every tier, the derived workload parameters equal the documented
multiplier formulas exactly: with multiplier k = specMultiplier t (1 for
small, 5 for medium, 10 for large), CPU iterations = k * 200000, memory size
= k * 256 MB, disk size = k * 256 MB, call-overhead iterations = k * 5000000,
matrix dimension = k * 300; and tier large gives CPU iterations 2000000. -/
theorem claim_C4_tier_parameters (t : Tier) :
    sizes t = specMultiplier t ∧
      cpu_iters t = specMultiplier t * 200000 ∧
      mem_mb t = specMultiplier t * 256 ∧
      disk_mb t = specMultiplier t * 256 ∧
      py_iters t = specMultiplier t * 5000000 ∧
      np_size t = specMultiplier t * 300 ∧
      cpu_iters Tier.large = 2000000 := by
  cases t <;> exact ⟨rfl, rfl, rfl, rfl, rfl, rfl, rfl⟩

/-- C5: for every size_mb, disk_test(size_mb) writes its 1 MB chunk exactly
floor(size_mb * 1024 * 1024 / chunk_size) times, so total bytes written equal
floor(size_mb * 1024 * 1024 / chunk_size) * chunk_size. -/
theorem claim_C5_disk_bytes_written (size_mb : Nat) (data : List Nat)
    (hdata : data.length = chunk_size) :
    disk_test_writes size_mb data = size_mb * 1024 * 1024 / chunk_size ∧
      (disk_test_written size_mb data).length =
        size_mb * 1024 * 1024 / chunk_size * chunk_size := by
  constructor
  · unfold disk_test_writes
    rw [hdata]
  · rw [disk_test_written_length]
    unfold disk_test_writes
    rw [hdata]

/-- C5 witness: chunk data of length chunk_size at size_mb = 1. -/
theorem claim_C5_witness :
    disk_test_writes 1 (List.replicate chunk_size 0) = 1 * 1024 * 1024 / chunk_size ∧
      (disk_test_written 1 (List.replicate chunk_size 0)).length =
        1 * 1024 * 1024 / chunk_size * chunk_size :=
  claim_C5_disk_bytes_written 1 (List.replicate chunk_size 0) (by simp)

/-- C6: timer invokes the workload exactly once (the invocation counter
advances from count to count + 1), returns the pair (elapsed, result) with
the workload's result unchanged on success, and propagates the workload's
failure unchanged to the caller. -/
theorem claim_C6_timer_spec (ε α : Type) (clockStart clockStop : ℚ)
    (g : Except ε α) (count : Nat) :
    (timer clockStart clockStop (fun c => (c + 1, g)) count).1 = count + 1 ∧
      (timer clockStart clockStop (fun c => (c + 1, g)) count).2 =
        (match g with
         | .ok v => .ok (clockStop - clockStart, v)
         | .error e => .error e) := by
  cases g <;> exact ⟨rfl, rfl⟩

/-- C7: for every size_mb, chunk data and injected failure point, after
disk_test finishes — whether the body completed normally or raised while
writing or reading — no file remains at the temporary path it used. -/
theorem claim_C7_disk_cleanup (size_mb : Nat) (data : List Nat)
    (failAt : Option Nat) :
    (disk_test_run size_mb data failAt).2 = none := by
  rcases hb : disk_test_body size_mb data failAt ⟨[], 0⟩ with e | f <;>
    simp [disk_test_run, hb]

/-- C9: for every size_mb, the number of chunk writes performed by disk_test
is exactly size_mb, because the chunk is exactly 1024*1024 bytes and the
requested size is size_mb * 1024 * 1024, making the integer division exact;
the bytes written therefore always equal exactly size_mb * 1024 * 1024. -/
theorem claim_C9_disk_exact_bytes (size_mb : Nat) (data : List Nat)
    (hdata : data.length = chunk_size) :
    disk_test_writes size_mb data = size_mb ∧
      (disk_test_written size_mb data).length = size_mb * (1024 * 1024) := by
  have hw : disk_test_writes size_mb data = size_mb := by
    unfold disk_test_writes
    rw [hdata]
    unfold chunk_size
    omega
  refine ⟨hw, ?_⟩
  rw [disk_test_written_length, hw, hdata]
  rfl

/-- C9 witness: chunk data of length chunk_size at size_mb = 2. -/
theorem claim_C9_witness :
    disk_test_writes 2 (List.replicate chunk_size 1) = 2 ∧
      (disk_test_written 2 (List.replicate chunk_size 1)).length = 2 * (1024 * 1024) :=
  claim_C9_disk_exact_bytes 2 (List.replicate chunk_size 1) (by simp)

/-- C10: memory_test is monotone non-decreasing: for all a and b with a ≤ b,
memory_test(a) ≤ memory_test(b), since every strided byte contributes a
non-negative value and a larger buffer only adds stride offsets. -/
theorem claim_C10_memory_monotone (a b : Nat) (hab : a ≤ b) :
    memory_test a ≤ memory_test b := by
  rw [memory_test_eq_finset, memory_test_eq_finset]
  apply Finset.sum_le_sum_of_subset
  exact Finset.range_subset.mpr (Nat.mul_le_mul_right _ hab)

/-- C10 witness: memory_test 0 ≤ memory_test 1. -/
theorem claim_C10_witness : memory_test 0 ≤ memory_test 1 :=
  claim_C10_memory_monotone 0 1 (by decide)

end Benchmark
